import Mathlib

/-!
Shallow embedding of `pkg/cmd/run/view/view.go` (the `gh run view` command):
the data model (`Run`, `Job`, `Step`, diagnostic annotations), the renderer
`renderRun`/`titleForRun`, the retrieval driver `runView`, and the argument
resolution performed by `NewCmdView`'s `RunE` closure.

Output is modelled as the list of strings passed to `fmt.Fprintf`/`fmt.Fprintln`
on the output stream, in emission order, each including the newlines the Go
call writes.  Collaborators (HTTP client factory, base-repo resolver, the run
prompt, the three fetchers) are modelled as explicit `Except`-valued fields of
a `Collab` record; the color scheme and the shared display helpers are fields
of a `RenderEnv` record.  Side effects of `runView` (progress indicator
start/stop, collaborator calls, rendering) are recorded as an event trace.
-/

namespace GhRunView

/-- A workflow run, as used by `view.go` (fields of `shared.Run` the file
reads: `ID`, `Name`, `HeadBranch`, `Event`, `CreatedAt`, `Status`,
`Conclusion`, `URL`).  `createdAt` is an integer timestamp; `opts.Now()`
minus it gives the `ago` duration. -/
structure Run where
  id : Int
  name : String
  headBranch : String
  event : String
  createdAt : Int
  status : String
  conclusion : String
  url : String
deriving Repr, DecidableEq

/-- A step of a job (`shared.Job.Steps` element): `Name`, `Status`,
`Conclusion`. -/
structure Step where
  name : String
  status : String
  conclusion : String
deriving Repr, DecidableEq

/-- A job of a run (`shared.Job` fields read by `view.go`): `ID`, `Name`,
`Status`, `Conclusion`, `Steps`. -/
structure Job where
  id : Int
  name : String
  status : String
  conclusion : String
  steps : List Step
deriving Repr, DecidableEq

/-- A diagnostic annotation (`shared.Annotation` fields read by `view.go`):
its level (which `a.Symbol(cs)` maps to a glyph), `Message`, `JobName`,
`Path`, `StartLine`. -/
structure Annotation where
  level : String
  message : String
  jobName : String
  path : String
  startLine : Int
deriving Repr, DecidableEq

/-- Modelled from the spec: the `shared.Failure` conclusion constant (the
conclusion string `"failure"`); `shared` is not under `src/`. -/
def Failure : String := "failure"

/-- Modelled from the spec: `shared.IsFailureState`, the single shared
failure-class predicate on conclusion values; `shared` is not under `src/`.
The spec fixes that it holds of `"failure"` and reasonably of `"timed_out"`
and `"cancelled"`, and that consistency, not exact membership, is the required
property. -/
def IsFailureState (conclusion : String) : Bool :=
  conclusion == Failure || conclusion == "timed_out" || conclusion == "cancelled"

/-- The color scheme and shared display collaborators consumed by the
renderer: `cs.Bold`, `cs.Cyanf "%d"`, `cs.Gray`/`cs.Grayf`, `cs.FailureIcon`,
`shared.Symbol cs status conclusion`, `a.Symbol cs` (as a function of the
annotation level), and `utils.FuzzyAgo`.  All are out-of-scope collaborators,
so they are opaque parameters here. -/
structure RenderEnv where
  bold : String → String
  cyan : String → String
  gray : String → String
  failureIcon : String
  symbol : String → String → String
  annotationSymbol : String → String
  fuzzyAgo : Int → String

/-- `ViewOptions` (the fields `runView`/`renderRun` read): `RunID`,
`Verbose`, `ExitStatus`, `Prompt`, `ShowProgress`, and the injected clock
`Now` (modelled as the integer timestamp it returns). -/
structure ViewOptions where
  runID : String
  verbose : Bool
  exitStatus : Bool
  prompt : Bool
  showProgress : Bool
  now : Int
deriving Repr, DecidableEq

/-- The errors the command layer can observe: `cmdutil.SilentError`, an error
wrapped by `fmt.Errorf("<ctx>: %w", err)`, an error returned verbatim, and
`cmdutil.FlagError`. -/
inductive ViewError where
  | silent : ViewError
  | wrapped : String → String → ViewError
  | plain : String → ViewError
  | flag : String → ViewError
deriving Repr, DecidableEq

/-- Replace the first occurrence of `pat` in a character list by `repl`. -/
def replaceFirstChars (pat repl : List Char) : List Char → List Char
  | [] => []
  | c :: cs =>
    if (c :: cs).take pat.length == pat then repl ++ (c :: cs).drop pat.length
    else c :: replaceFirstChars pat repl cs

/-- Replace the first occurrence of `pat` in `s` by `repl`; models how
`fmt.Fprintf` substitutes the single `%s` verb of a format string. -/
def substFirst (s pat repl : String) : String :=
  String.mk (replaceFirstChars pat.data repl.data s.data)

/-- Split a character list at newline characters, keeping empty segments. -/
def splitLinesChars : List Char → List (List Char)
  | [] => [[]]
  | c :: cs =>
    let r := splitLinesChars cs
    if c = '\n' then [] :: r
    else
      match r with
      | [] => [[c]]
      | l :: ls => (c :: l) :: ls

/-- The lines of a string in display order: the segments between newline
characters (the terminal-visible decomposition of the rendered output). -/
def linesOf (s : String) : List String := (splitLinesChars s.data).map String.mk

/-- `titleForRun`: `fmt.Sprintf("%s %s%s", cs.Bold(run.HeadBranch), run.Name, prID)`
with `prID = ""`.  The format string separates the first two verbs with a
literal space, so the bolded branch and the run name are space-separated,
and `prID` follows the name with no separator. -/
def titleForRun (env : RenderEnv) (run : Run) : String :=
  let prID := ""
  env.bold run.headBranch ++ " " ++ run.name ++ prID

/-- One step line of the per-job loop body:
`fmt.Fprintf(out, "  %s %s\n", shared.Symbol(cs, step.Status, step.Conclusion), step.Name)`. -/
def stepChunk (env : RenderEnv) (step : Step) : String :=
  "  " ++ env.symbol step.status step.conclusion ++ " " ++ step.name ++ "\n"

/-- The chunks emitted for one job by the `for _, job := range jobs` loop:
the job line, then the step lines when `opts.Verbose || shared.IsFailureState(job.Conclusion)`. -/
def jobChunks (env : RenderEnv) (verbose : Bool) (job : Job) : List String :=
  (env.symbol job.status job.conclusion ++ " " ++ job.name ++ " (ID "
      ++ env.cyan (toString job.id) ++ ")\n")
    :: (if verbose || IsFailureState job.conclusion
        then job.steps.map (stepChunk env) else [])

/-- The chunks emitted for one annotation by the `for _, a := range annotations`
loop: `fmt.Fprintf(out, "%s %s\n", a.Symbol(cs), a.Message)` then
`fmt.Fprintln(out, cs.Grayf("%s: %s#%d\n", a.JobName, a.Path, a.StartLine))` —
the `Grayf` argument already ends in `"\n"` and `Fprintln` appends another. -/
def annotationChunks (env : RenderEnv) (a : Annotation) : List String :=
  [env.annotationSymbol a.level ++ " " ++ a.message ++ "\n",
   env.gray (a.jobName ++ ": " ++ a.path ++ "#" ++ toString a.startLine ++ "\n") ++ "\n"]

/-- `renderRun(opts, run, jobs, annotations)`: returns the list of chunks
written to `opts.IO.Out` in order, and the returned error (`none` for `nil`,
`some .silent` for `cmdutil.SilentError`). -/
def renderRun (env : RenderEnv) (opts : ViewOptions) (run : Run) (jobs : List Job)
    (annotations : List Annotation) : List String × Option ViewError :=
  let title := titleForRun env run
  let symbol := env.symbol run.status run.conclusion
  let id := env.cyan (toString run.id)
  let ago := opts.now - run.createdAt
  let pre : List String :=
    ["\n",
     symbol ++ " " ++ title ++ " · " ++ id ++ "\n",
     "Triggered via " ++ run.event ++ " " ++ env.fuzzyAgo ago ++ "\n",
     "\n"]
  if jobs.length == 0 && run.conclusion == Failure then
    (pre ++
      [env.failureIcon ++ " "
         ++ env.bold "This run likely failed because of a workflow file issue." ++ "\n",
       "\n",
       "For more information, see: " ++ env.bold run.url ++ "\n"],
     if opts.exitStatus && IsFailureState run.conclusion then some .silent else none)
  else
    let jobsSection : List String :=
      (env.bold "JOBS" ++ "\n") :: (jobs.map (jobChunks env opts.verbose)).flatten
    let annotationsSection : List String :=
      if annotations.length > 0 then
        "\n" :: (env.bold "ANNOTATIONS" ++ "\n")
          :: (annotations.map (annotationChunks env)).flatten
      else []
    let footer : List String :=
      ["\n",
       "For more information about a job, try: gh job view <job-id>\n",
       substFirst (env.gray "view this run on GitHub: %s\n") "%s" run.url]
    (pre ++ jobsSection ++ annotationsSection ++ footer,
     if opts.exitStatus && IsFailureState run.conclusion then some .silent else none)

/-- Observable effects of `runView`, in order: the run prompt, progress
indicator start/stop, the three fetch stages, and the call to `renderRun`. -/
inductive Event where
  | promptForRun : Event
  | startIndicator : Event
  | stopIndicator : Event
  | getRun : String → Event
  | getJobs : Event
  | getAnnotations : String → Event
  | render : Event
deriving Repr, DecidableEq

/-- The collaborators `runView` consumes, each as its result on this
invocation: `opts.HttpClient()`, `opts.BaseRepo()`, `shared.PromptForRun`,
`shared.GetRun`, `shared.GetJobs`, `shared.GetAnnotations`. -/
structure Collab where
  httpClient : Except String Unit
  baseRepo : Except String Unit
  promptForRun : Except String String
  getRun : String → Except String Run
  getJobs : Run → Except String (List Job)
  getAnnotations : Job → Except String (List Annotation)

/-- What one invocation of `runView` (or of the whole command) did: the event
trace, the returned error (`none` for `nil`), and the chunks rendered to the
output stream (empty when `renderRun` was never called). -/
structure Outcome where
  events : List Event
  result : Option ViewError
  output : List String
deriving Repr, DecidableEq

/-- The annotation loop of `runView`: for each job in order fetch its
annotations, breaking at the first error; on success the per-job lists are
appended in job order.  Returns the `getAnnotations` events it issued and
either the first error or the flattened list. -/
def fetchAnnotations (c : Collab) : List Job → List Event × Except String (List Annotation)
  | [] => ([], .ok [])
  | job :: rest =>
    match c.getAnnotations job with
    | .error e => ([Event.getAnnotations job.name], .error e)
    | .ok as =>
      let r := fetchAnnotations c rest
      (Event.getAnnotations job.name :: r.1,
       match r.2 with
       | .error e => .error e
       | .ok more => .ok (as ++ more))

/-- `runView(opts)`: client construction, base-repo resolution, optional
prompt, progress indicator start (when `opts.ShowProgress`), the run fetch,
the jobs fetch, the annotation loop, progress indicator stop, then
`renderRun`.  Each collaborator error is returned at once with the wrapping
the Go code applies (the prompt error is returned unwrapped).  Note the Go
code only reaches `StopProgressIndicator` after the annotation stage
succeeded. -/
def runView (opts : ViewOptions) (env : RenderEnv) (c : Collab) : Outcome :=
  match c.httpClient with
  | .error e => ⟨[], some (.wrapped "failed to create http client" e), []⟩
  | .ok _ =>
    match c.baseRepo with
    | .error e => ⟨[], some (.wrapped "failed to determine base repo" e), []⟩
    | .ok _ =>
      let promptRes : List Event × Except ViewError String :=
        if opts.prompt then
          ([Event.promptForRun],
           match c.promptForRun with
           | .error e => .error (.plain e)
           | .ok rid => .ok rid)
        else ([], .ok opts.runID)
      match promptRes with
      | (evs, .error e) => ⟨evs, some e, []⟩
      | (evs₀, .ok runID) =>
        let evs₁ := evs₀ ++ (if opts.showProgress then [Event.startIndicator] else [])
        match c.getRun runID with
        | .error e =>
          ⟨evs₁ ++ [Event.getRun runID], some (.wrapped "failed to get run" e), []⟩
        | .ok run =>
          let evs₂ := evs₁ ++ [Event.getRun runID]
          match c.getJobs run with
          | .error e => ⟨evs₂ ++ [Event.getJobs], some (.wrapped "failed to get jobs" e), []⟩
          | .ok jobs =>
            let evs₃ := evs₂ ++ [Event.getJobs]
            match fetchAnnotations c jobs with
            | (aevs, .error e) =>
              ⟨evs₃ ++ aevs, some (.wrapped "failed to get annotations" e), []⟩
            | (aevs, .ok annotations) =>
              let evs₄ := evs₃ ++ aevs
                ++ (if opts.showProgress then [Event.stopIndicator] else [])
              let r := renderRun env opts run jobs annotations
              ⟨evs₄ ++ [Event.render], r.2, r.1⟩

/-- The argument resolution of `NewCmdView`'s `RunE` closure: `terminal` is
`IsStdoutTTY && IsStdinTTY`; an explicit argument becomes `opts.RunID`; with
no argument a non-terminal session gets `cmdutil.FlagError("expected a run ID")`
and a terminal session sets `opts.Prompt`. -/
def runE (stdoutTTY stdinTTY : Bool) (args : List String) (verbose exitStatus : Bool)
    (now : Int) : Except ViewError ViewOptions :=
  let terminal := stdoutTTY && stdinTTY
  let opts : ViewOptions :=
    { runID := "", verbose := verbose, exitStatus := exitStatus,
      prompt := false, showProgress := terminal, now := now }
  match args with
  | arg :: _ => .ok { opts with runID := arg }
  | [] =>
    if !terminal then .error (.flag "expected a run ID")
    else .ok { opts with prompt := true }

/-- The whole command: resolve arguments as `RunE` does, then call `runView`
unless resolution failed (`RunE` returns the flag error before any
collaborator is touched). -/
def cmdExecute (stdoutTTY stdinTTY : Bool) (args : List String) (verbose exitStatus : Bool)
    (now : Int) (env : RenderEnv) (c : Collab) : Outcome :=
  match runE stdoutTTY stdinTTY args verbose exitStatus now with
  | .error e => ⟨[], some e, []⟩
  | .ok opts => runView opts env c

/-! Concrete sample values used to exercise the model on closed inputs. -/

/-- A color scheme whose styling functions are the identity, with fixed
glyphs, used to evaluate the renderer on closed inputs. -/
def idEnv : RenderEnv :=
  { bold := fun s => s, cyan := fun s => s, gray := fun s => s,
    failureIcon := "X", symbol := fun _ _ => "S",
    annotationSymbol := fun _ => "A", fuzzyAgo := fun _ => "ago" }

/-- A completed successful run. -/
def run0 : Run :=
  { id := 7, name := "CI", headBranch := "main", event := "push",
    createdAt := 0, status := "completed", conclusion := "success", url := "u" }

/-- A successful job with one step. -/
def jobOK : Job :=
  { id := 1, name := "okjob", status := "completed", conclusion := "success",
    steps := [{ name := "s1", status := "completed", conclusion := "success" }] }

/-- A failed job with two steps. -/
def jobBad : Job :=
  { id := 2, name := "badjob", status := "completed", conclusion := "failure",
    steps := [{ name := "t1", status := "completed", conclusion := "success" },
              { name := "t2", status := "completed", conclusion := "failure" }] }

/-- A sample annotation on `jobA`. -/
def ann1 : Annotation :=
  { level := "warning", message := "m1", jobName := "jobA", path := "p", startLine := 1 }

/-- A second sample annotation. -/
def ann2 : Annotation :=
  { level := "warning", message := "m2", jobName := "jobA", path := "q", startLine := 2 }

/-- Baseline options: explicit run ID, no flags, non-interactive. -/
def opts0 : ViewOptions :=
  { runID := "42", verbose := false, exitStatus := false, prompt := false,
    showProgress := false, now := 5 }

/-- Collaborators that all succeed. -/
def cAllOk : Collab :=
  { httpClient := .ok (), baseRepo := .ok (), promptForRun := .ok "9",
    getRun := fun _ => .ok run0, getJobs := fun _ => .ok [],
    getAnnotations := fun _ => .ok [] }

/-- Collaborators whose run fetch fails. -/
def cRunFails : Collab :=
  { cAllOk with getRun := fun _ => .error "boom" }

/-- Collaborators whose run prompt fails. -/
def cPromptFails : Collab :=
  { cAllOk with promptForRun := .error "boom" }

/-- Collaborators whose HTTP client construction fails. -/
def cHttpFails : Collab :=
  { cAllOk with httpClient := .error "boom" }

/-- Collaborators returning two jobs, where the annotation fetch succeeds on
`jobOK` and fails on `jobBad`. -/
def cAnnFails : Collab :=
  { cAllOk with
    getJobs := fun _ => .ok [jobOK, jobBad],
    getAnnotations := fun j => if j.name == "okjob" then .ok [ann1] else .error "boom2" }

/-- Is this error a `fmt.Errorf`-wrapped one? -/
def ViewError.isWrapped : ViewError → Bool
  | .wrapped _ _ => true
  | _ => false

/-! Theorems. -/

/-- Claim C1: `renderRun` returns the silent-failure signal if and only if
`--exit-status` was set and the run's conclusion is failure-class, in both the
empty-jobs branch and the normal branch; and whenever the conclusion is not
failure-class the renderer returns success regardless of the flag. -/
theorem c1_silent_signal_iff (env : RenderEnv) (opts : ViewOptions) (run : Run)
    (jobs : List Job) (annotations : List Annotation) :
    ((renderRun env opts run jobs annotations).2 = some ViewError.silent
        ↔ opts.exitStatus = true ∧ IsFailureState run.conclusion = true)
    ∧ (IsFailureState run.conclusion = false
        → (renderRun env opts run jobs annotations).2 = none) := by
  by_cases hb : (jobs.length == 0 && run.conclusion == Failure) = true <;>
    cases hes : opts.exitStatus <;>
      cases hfs : IsFailureState run.conclusion <;>
        simp [renderRun, hb, hes, hfs]

/-- Witness for C1 at concrete inputs: with `--exit-status` and conclusion
`"failure"` the renderer signals silent failure; without a failure-class
conclusion it returns success even with the flag set. -/
theorem c1_silent_signal_iff_witness :
    (renderRun idEnv { opts0 with exitStatus := true }
        { run0 with conclusion := "failure" } [] []).2 = some ViewError.silent
    ∧ (renderRun idEnv { opts0 with exitStatus := true } run0 [jobOK] []).2 = none := by
  constructor
  · exact (c1_silent_signal_iff idEnv { opts0 with exitStatus := true }
      { run0 with conclusion := "failure" } [] []).1.mpr ⟨rfl, by decide⟩
  · exact (c1_silent_signal_iff idEnv { opts0 with exitStatus := true }
      run0 [jobOK] []).2 (by decide)

/-- Claim C2: for a run with zero jobs and conclusion `"failure"`, the
renderer emits exactly the header chunks, the failure-icon line about a
workflow file issue, a blank line and the run-URL line, and nothing else (no
JOBS section, no ANNOTATIONS section, no footer). -/
theorem c2_empty_jobs_failure (env : RenderEnv) (opts : ViewOptions) (run : Run)
    (annotations : List Annotation) (h : run.conclusion = Failure) :
    (renderRun env opts run [] annotations).1 =
      ["\n",
       env.symbol run.status run.conclusion ++ " " ++ titleForRun env run ++ " · "
         ++ env.cyan (toString run.id) ++ "\n",
       "Triggered via " ++ run.event ++ " " ++ env.fuzzyAgo (opts.now - run.createdAt) ++ "\n",
       "\n",
       env.failureIcon ++ " "
         ++ env.bold "This run likely failed because of a workflow file issue." ++ "\n",
       "\n",
       "For more information, see: " ++ env.bold run.url ++ "\n"] := by
  simp [renderRun, h]

/-- Witness for C2: the empty-jobs failing run renders exactly the seven
chunks, even when annotations were collected. -/
theorem c2_empty_jobs_failure_witness :
    (renderRun idEnv opts0 { run0 with conclusion := "failure" } [] [ann1]).1 =
      ["\n",
       idEnv.symbol run0.status "failure" ++ " "
         ++ titleForRun idEnv { run0 with conclusion := "failure" } ++ " · "
         ++ idEnv.cyan (toString run0.id) ++ "\n",
       "Triggered via " ++ run0.event ++ " " ++ idEnv.fuzzyAgo (opts0.now - run0.createdAt) ++ "\n",
       "\n",
       idEnv.failureIcon ++ " "
         ++ idEnv.bold "This run likely failed because of a workflow file issue." ++ "\n",
       "\n",
       "For more information, see: " ++ idEnv.bold run0.url ++ "\n"] :=
  c2_empty_jobs_failure idEnv opts0 { run0 with conclusion := "failure" } [ann1] rfl

/-- Claim C8 as stated is false: `titleForRun` is built by
`fmt.Sprintf("%s %s%s", cs.Bold(run.HeadBranch), run.Name, prID)`, whose
format string puts a literal space between the bolded branch and the run
name.  With identity styling the header line reads `"S main CI · 7\n"`, not
the claimed separator-free `"S mainCI · 7\n"`. -/
theorem c8_counterexample :
    (renderRun idEnv opts0 run0 [] []).1[1]? = some "S main CI · 7\n"
    ∧ (renderRun idEnv opts0 run0 [] []).1[1]? ≠ some "S mainCI · 7\n"
    ∧ titleForRun idEnv run0 ≠ idEnv.bold run0.headBranch ++ run0.name := by
  refine ⟨rfl, ?_, ?_⟩ <;> decide

/-- Claim C8 amended: the rendered output always begins with a blank line
followed by the header line made of the status symbol, a space, the bolded
head branch, a space, the run name, then a middle dot and the cyan run ID;
`titleForRun` is the bolded branch and the name separated by a single
space. -/
theorem c8_header (env : RenderEnv) (opts : ViewOptions) (run : Run)
    (jobs : List Job) (annotations : List Annotation) :
    (renderRun env opts run jobs annotations).1.take 2 =
      ["\n",
       env.symbol run.status run.conclusion ++ " "
         ++ (env.bold run.headBranch ++ " " ++ run.name) ++ " · "
         ++ env.cyan (toString run.id) ++ "\n"]
    ∧ titleForRun env run = env.bold run.headBranch ++ " " ++ run.name := by
  by_cases hb : (jobs.length == 0 && run.conclusion == Failure) = true <;>
    simp [renderRun, titleForRun, hb, String.append_empty]

/-- Claim C3: in the normal branch the renderer emits, after the header
chunks and the bold JOBS header, exactly the per-job chunks in job order; and
for any job those chunks are its job line followed by its step lines (each
indented two spaces, `<status-symbol> <step-name>`, in original step order)
precisely when verbose mode is on or the job's conclusion is failure-class,
and the job line alone otherwise. -/
theorem c3_steps_iff (env : RenderEnv) (opts : ViewOptions) (run : Run)
    (jobs : List Job) (annotations : List Annotation)
    (h : (jobs.length == 0 && run.conclusion == Failure) = false) :
    (∃ rest, (renderRun env opts run jobs annotations).1
        = ["\n",
           env.symbol run.status run.conclusion ++ " " ++ titleForRun env run ++ " · "
             ++ env.cyan (toString run.id) ++ "\n",
           "Triggered via " ++ run.event ++ " " ++ env.fuzzyAgo (opts.now - run.createdAt) ++ "\n",
           "\n",
           env.bold "JOBS" ++ "\n"]
          ++ (jobs.map (jobChunks env opts.verbose)).flatten ++ rest)
    ∧ ∀ job : Job,
        jobChunks env opts.verbose job
          = (env.symbol job.status job.conclusion ++ " " ++ job.name ++ " (ID "
              ++ env.cyan (toString job.id) ++ ")\n")
            :: (if (opts.verbose || IsFailureState job.conclusion) = true
                then job.steps.map (fun step =>
                  "  " ++ env.symbol step.status step.conclusion ++ " " ++ step.name ++ "\n")
                else []) := by
  constructor
  · refine ⟨(if annotations.length > 0 then
        "\n" :: (env.bold "ANNOTATIONS" ++ "\n")
          :: (annotations.map (annotationChunks env)).flatten
      else [])
      ++ ["\n",
          "For more information about a job, try: gh job view <job-id>\n",
          substFirst (env.gray "view this run on GitHub: %s\n") "%s" run.url], ?_⟩
    simp [renderRun, h]
  · intro job
    have hst : stepChunk env = fun step : Step =>
        "  " ++ env.symbol step.status step.conclusion ++ " " ++ step.name ++ "\n" := rfl
    simp [jobChunks, hst]

/-- Witness for C3 at concrete inputs: with verbose off, the failing job's
chunks are its job line plus its two step lines, and the successful job's
chunks are its job line alone. -/
theorem c3_steps_iff_witness :
    (jobChunks idEnv false jobBad).length = 3
    ∧ (jobChunks idEnv false jobOK).length = 1 := by
  have h := c3_steps_iff idEnv opts0 run0 [jobOK, jobBad] [] rfl
  refine ⟨?_, ?_⟩
  · rw [show jobChunks idEnv false jobBad = jobChunks idEnv opts0.verbose jobBad from rfl,
      h.2 jobBad]
    decide
  · rw [show jobChunks idEnv false jobOK = jobChunks idEnv opts0.verbose jobOK from rfl,
      h.2 jobOK]
    decide

/-- Claim C10: for a run with zero jobs whose conclusion is not exactly
`"failure"`, the workflow-file-issue branch is not taken: the renderer prints
the bold JOBS header with no job lines, then the annotations section (exactly
when annotations exist) and the footer, and the exit-status decision still
applies (silent failure exactly when the flag is set and the conclusion is
failure-class, e.g. `"timed_out"`). -/
theorem c10_zero_jobs_other_conclusion (env : RenderEnv) (opts : ViewOptions) (run : Run)
    (annotations : List Annotation) (h : run.conclusion ≠ Failure) :
    (renderRun env opts run [] annotations).1 =
      ["\n",
       env.symbol run.status run.conclusion ++ " " ++ titleForRun env run ++ " · "
         ++ env.cyan (toString run.id) ++ "\n",
       "Triggered via " ++ run.event ++ " " ++ env.fuzzyAgo (opts.now - run.createdAt) ++ "\n",
       "\n",
       env.bold "JOBS" ++ "\n"]
      ++ (if annotations.length > 0 then
            "\n" :: (env.bold "ANNOTATIONS" ++ "\n")
              :: (annotations.map (annotationChunks env)).flatten
          else [])
      ++ ["\n",
          "For more information about a job, try: gh job view <job-id>\n",
          substFirst (env.gray "view this run on GitHub: %s\n") "%s" run.url]
    ∧ ((renderRun env opts run [] annotations).2 = some ViewError.silent
        ↔ opts.exitStatus = true ∧ IsFailureState run.conclusion = true) := by
  refine ⟨by simp [renderRun, h], (c1_silent_signal_iff env opts run [] annotations).1⟩

/-- Witness for C10: a zero-job run concluded `"timed_out"` renders the JOBS
header (not the workflow-file-issue message) and, with `--exit-status`, still
yields the silent-failure signal because `"timed_out"` is failure-class. -/
theorem c10_zero_jobs_other_conclusion_witness :
    (renderRun idEnv { opts0 with exitStatus := true }
        { run0 with conclusion := "timed_out" } [] []).1.take 5 =
      ["\n", "S main CI · 7\n", "Triggered via push ago\n", "\n", "JOBS\n"]
    ∧ (renderRun idEnv { opts0 with exitStatus := true }
        { run0 with conclusion := "timed_out" } [] []).2 = some ViewError.silent := by
  have h := c10_zero_jobs_other_conclusion idEnv { opts0 with exitStatus := true }
    { run0 with conclusion := "timed_out" } [] (by decide)
  exact ⟨by rw [h.1]; rfl, h.2.mpr ⟨rfl, by decide⟩⟩

/-- Claim C9 as stated is false: between two consecutive annotations the
renderer emits an extra blank line, because the grayed location chunk already
ends in a newline and is printed with `Fprintln`.  Concretely, with identity
styling and two annotations the grayed chunk is `"jobA: p#1\n\n"` and the
line after `"jobA: p#1"` is empty rather than the next annotation's message
line. -/
theorem c9_counterexample :
    (renderRun idEnv opts0 run0 [] [ann1, ann2]).1[8]? = some "jobA: p#1\n\n"
    ∧ linesOf (String.join (renderRun idEnv opts0 run0 [] [ann1, ann2]).1) =
      ["", "S main CI · 7", "Triggered via push ago", "", "JOBS", "", "ANNOTATIONS",
       "A m1", "jobA: p#1", "", "A m2", "jobA: q#2", "", "",
       "For more information about a job, try: gh job view <job-id>",
       "view this run on GitHub: u", ""] := by
  constructor <;> rfl

/-- Claim C9 amended: if and only if the flattened annotations list is
non-empty, the renderer emits a blank line and the bold ANNOTATIONS header,
then for each annotation in flattened order the chunk
`<annotation-symbol> <message>` and a grayed `<job-name>: <path>#<start-line>`
chunk that is followed by an extra blank line (its text already ends in a
newline and it is printed with `Fprintln`), so consecutive annotations are
separated by a blank line. -/
theorem c9_annotations_section (env : RenderEnv) (opts : ViewOptions) (run : Run)
    (jobs : List Job) (annotations : List Annotation)
    (h : (jobs.length == 0 && run.conclusion == Failure) = false) :
    (renderRun env opts run jobs annotations).1 =
      ["\n",
       env.symbol run.status run.conclusion ++ " " ++ titleForRun env run ++ " · "
         ++ env.cyan (toString run.id) ++ "\n",
       "Triggered via " ++ run.event ++ " " ++ env.fuzzyAgo (opts.now - run.createdAt) ++ "\n",
       "\n",
       env.bold "JOBS" ++ "\n"]
      ++ (jobs.map (jobChunks env opts.verbose)).flatten
      ++ (if annotations.length > 0 then
            "\n" :: (env.bold "ANNOTATIONS" ++ "\n")
              :: (annotations.map (fun a =>
                    [env.annotationSymbol a.level ++ " " ++ a.message ++ "\n",
                     env.gray (a.jobName ++ ": " ++ a.path ++ "#"
                       ++ toString a.startLine ++ "\n") ++ "\n"])).flatten
          else [])
      ++ ["\n",
          "For more information about a job, try: gh job view <job-id>\n",
          substFirst (env.gray "view this run on GitHub: %s\n") "%s" run.url] := by
  have hac : annotationChunks env = fun a : Annotation =>
      [env.annotationSymbol a.level ++ " " ++ a.message ++ "\n",
       env.gray (a.jobName ++ ": " ++ a.path ++ "#" ++ toString a.startLine ++ "\n") ++ "\n"] := rfl
  simp [renderRun, h, hac]

/-- Witness for the amended C9: with one annotation the section appears with
the extra blank line after the grayed chunk; with none, no ANNOTATIONS chunk
is emitted at all. -/
theorem c9_annotations_section_witness :
    (renderRun idEnv opts0 run0 [jobOK] [ann1]).1 =
      ["\n", "S main CI · 7\n", "Triggered via push ago\n", "\n", "JOBS\n",
       "S okjob (ID 1)\n",
       "\n", "ANNOTATIONS\n", "A m1\n", "jobA: p#1\n\n",
       "\n", "For more information about a job, try: gh job view <job-id>\n",
       "view this run on GitHub: u\n"]
    ∧ (renderRun idEnv opts0 run0 [jobOK] []).1 =
      ["\n", "S main CI · 7\n", "Triggered via push ago\n", "\n", "JOBS\n",
       "S okjob (ID 1)\n",
       "\n", "For more information about a job, try: gh job view <job-id>\n",
       "view this run on GitHub: u\n"] := by
  have h1 := c9_annotations_section idEnv opts0 run0 [jobOK] [ann1] rfl
  have h2 := c9_annotations_section idEnv opts0 run0 [jobOK] [] rfl
  exact ⟨by rw [h1]; rfl, by rw [h2]; rfl⟩

/-- The annotation loop issues one `getAnnotations` call per job, in job
order, when every fetch succeeds, and returns the flattened list. -/
theorem fetchAnnotations_ok_events (c : Collab) (jobs : List Job)
    (h : ∀ j ∈ jobs, ∃ as, c.getAnnotations j = .ok as) :
    ∃ anns, fetchAnnotations c jobs
      = (jobs.map (fun j => Event.getAnnotations j.name), .ok anns) := by
  induction jobs with
  | nil => exact ⟨[], rfl⟩
  | cons j rest ih =>
    obtain ⟨as, hj⟩ := h j (List.mem_cons_self _ _)
    obtain ⟨anns, hrest⟩ := ih fun x hx => h x (List.mem_cons_of_mem _ hx)
    exact ⟨as ++ anns, by simp [fetchAnnotations, hj, hrest]⟩

/-- The annotation loop stops at the first failing job: the jobs before it
are each fetched once in order, the failing job is fetched, the jobs after it
are not fetched, and the first error is returned. -/
theorem fetchAnnotations_error_split (c : Collab) (pre post : List Job) (job : Job)
    (e : String)
    (hpre : ∀ j ∈ pre, ∃ as, c.getAnnotations j = .ok as)
    (hjob : c.getAnnotations job = .error e) :
    fetchAnnotations c (pre ++ job :: post)
      = (pre.map (fun j => Event.getAnnotations j.name) ++ [Event.getAnnotations job.name],
         .error e) := by
  induction pre with
  | nil => simp [fetchAnnotations, hjob]
  | cons j rest ih =>
    obtain ⟨as, hj⟩ := hpre j (List.mem_cons_self _ _)
    have h2 := ih fun x hx => hpre x (List.mem_cons_of_mem _ hx)
    simp [fetchAnnotations, hj, h2]

/-- Claim C4 fails on the code: in an interactive session the progress
indicator is started before the run fetch, but when the fetch errors the
function returns with the indicator still running — no `stopIndicator` event
occurs on that exit path. -/
theorem c4_indicator_leak_on_error :
    (runView { opts0 with showProgress := true } idEnv cRunFails).events
        = [Event.startIndicator, Event.getRun "42"]
    ∧ (runView { opts0 with showProgress := true } idEnv cRunFails).result
        = some (ViewError.wrapped "failed to get run" "boom")
    ∧ Event.stopIndicator ∉ (runView { opts0 with showProgress := true } idEnv cRunFails).events := by
  refine ⟨rfl, rfl, ?_⟩
  decide

/-- Claim C5: annotations are fetched per job in job order; the first fetch
failure aborts the command with the error wrapped as
"failed to get annotations", jobs after the failing one are not fetched,
nothing is rendered, and the annotations collected from earlier jobs are
discarded. -/
theorem c5_annotation_fail_fast (opts : ViewOptions) (env : RenderEnv) (c : Collab)
    (run : Run) (pre post : List Job) (job : Job) (e : String)
    (hhc : c.httpClient = .ok ()) (hbr : c.baseRepo = .ok ())
    (hpr : opts.prompt = false)
    (hrun : c.getRun opts.runID = .ok run)
    (hjobs : c.getJobs run = .ok (pre ++ job :: post))
    (hpre : ∀ j ∈ pre, ∃ as, c.getAnnotations j = .ok as)
    (hjob : c.getAnnotations job = .error e) :
    runView opts env c
      = ⟨(if opts.showProgress then [Event.startIndicator] else [])
          ++ [Event.getRun opts.runID, Event.getJobs]
          ++ pre.map (fun j => Event.getAnnotations j.name)
          ++ [Event.getAnnotations job.name],
         some (ViewError.wrapped "failed to get annotations" e), []⟩ := by
  have hfa := fetchAnnotations_error_split c pre post job e hpre hjob
  simp [runView, hhc, hbr, hpr, hrun, hjobs, hfa]

/-- Witness for C5: with the first job's annotations succeeding and the
second job's fetch failing, the command ends with the wrapped annotation
error, fetches nothing further, renders nothing, and drops the collected
annotation of the first job. -/
theorem c5_annotation_fail_fast_witness :
    runView opts0 idEnv cAnnFails
      = ⟨[Event.getRun "42", Event.getJobs,
          Event.getAnnotations "okjob", Event.getAnnotations "badjob"],
         some (ViewError.wrapped "failed to get annotations" "boom2"), []⟩ :=
  c5_annotation_fail_fast opts0 idEnv cAnnFails run0 [jobOK] [] jobBad "boom2"
    rfl rfl rfl rfl rfl
    (fun j hj => by
      have hje : j = jobOK := by simpa using hj
      subst hje
      exact ⟨[ann1], rfl⟩)
    rfl

/-- Claim C6: with no run-id argument and a non-interactive session (stdout
or stdin not a terminal), the command fails at once with the usage error
"expected a run ID" and no collaborator is invoked (the event trace is
empty). -/
theorem c6_missing_arg_usage_error (stdoutTTY stdinTTY verbose exitStatus : Bool)
    (now : Int) (env : RenderEnv) (c : Collab)
    (h : (stdoutTTY && stdinTTY) = false) :
    cmdExecute stdoutTTY stdinTTY [] verbose exitStatus now env c
      = ⟨[], some (ViewError.flag "expected a run ID"), []⟩ := by
  simp [cmdExecute, runE, h]

/-- Witness for C6: stdout a terminal but stdin not, no argument — usage
error, empty trace. -/
theorem c6_missing_arg_usage_error_witness :
    cmdExecute true false [] false false 0 idEnv cAllOk
      = ⟨[], some (ViewError.flag "expected a run ID"), []⟩ :=
  c6_missing_arg_usage_error true false false false 0 idEnv cAllOk rfl

/-- Claim C7 as stated is false: the run-prompt collaborator's error is
returned verbatim, not wrapped with stage-specific context — with the prompt
failing with "boom" the command returns the plain error "boom". -/
theorem c7_counterexample :
    (runView { opts0 with prompt := true } idEnv cPromptFails).result
        = some (ViewError.plain "boom")
    ∧ ((runView { opts0 with prompt := true } idEnv cPromptFails).result.map
        ViewError.isWrapped) = some false
    ∧ Event.promptForRun ∈ (runView { opts0 with prompt := true } idEnv cPromptFails).events := by
  refine ⟨rfl, rfl, ?_⟩
  decide

/-- Claim C7 amended: errors from HTTP client construction, base-repository
resolution, the run fetch, the jobs fetch and the annotations fetch are each
wrapped with one line of stage-specific context and returned immediately (no
later collaborator is invoked); the run-prompt error is returned immediately
but unwrapped; and there are no retries — on the all-success path the trace
calls each stage exactly once, with one annotations fetch per job in order,
before rendering. -/
theorem c7_error_propagation (opts : ViewOptions) (env : RenderEnv) (c : Collab)
    (e : String) :
    (c.httpClient = .error e →
      runView opts env c
        = ⟨[], some (ViewError.wrapped "failed to create http client" e), []⟩)
    ∧ (c.httpClient = .ok () → c.baseRepo = .error e →
      runView opts env c
        = ⟨[], some (ViewError.wrapped "failed to determine base repo" e), []⟩)
    ∧ (c.httpClient = .ok () → c.baseRepo = .ok () → opts.prompt = true →
      c.promptForRun = .error e →
      runView opts env c = ⟨[Event.promptForRun], some (ViewError.plain e), []⟩)
    ∧ (c.httpClient = .ok () → c.baseRepo = .ok () → opts.prompt = false →
      c.getRun opts.runID = .error e →
      runView opts env c
        = ⟨(if opts.showProgress then [Event.startIndicator] else [])
            ++ [Event.getRun opts.runID],
           some (ViewError.wrapped "failed to get run" e), []⟩)
    ∧ (∀ run : Run, c.httpClient = .ok () → c.baseRepo = .ok () → opts.prompt = false →
      c.getRun opts.runID = .ok run → c.getJobs run = .error e →
      runView opts env c
        = ⟨(if opts.showProgress then [Event.startIndicator] else [])
            ++ [Event.getRun opts.runID, Event.getJobs],
           some (ViewError.wrapped "failed to get jobs" e), []⟩)
    ∧ (∀ (run : Run) (jobs : List Job) (aevs : List Event),
      c.httpClient = .ok () → c.baseRepo = .ok () → opts.prompt = false →
      c.getRun opts.runID = .ok run → c.getJobs run = .ok jobs →
      fetchAnnotations c jobs = (aevs, .error e) →
      runView opts env c
        = ⟨(if opts.showProgress then [Event.startIndicator] else [])
            ++ [Event.getRun opts.runID, Event.getJobs] ++ aevs,
           some (ViewError.wrapped "failed to get annotations" e), []⟩)
    ∧ (∀ (run : Run) (jobs : List Job),
      c.httpClient = .ok () → c.baseRepo = .ok () → opts.prompt = false →
      c.getRun opts.runID = .ok run → c.getJobs run = .ok jobs →
      (∀ j ∈ jobs, ∃ as, c.getAnnotations j = .ok as) →
      ∃ anns, runView opts env c
        = ⟨(if opts.showProgress then [Event.startIndicator] else [])
            ++ [Event.getRun opts.runID, Event.getJobs]
            ++ jobs.map (fun j => Event.getAnnotations j.name)
            ++ (if opts.showProgress then [Event.stopIndicator] else [])
            ++ [Event.render],
           (renderRun env opts run jobs anns).2,
           (renderRun env opts run jobs anns).1⟩) := by
  refine ⟨?_, ?_, ?_, ?_, ?_, ?_, ?_⟩
  · intro h1
    simp [runView, h1]
  · intro h1 h2
    simp [runView, h1, h2]
  · intro h1 h2 h3 h4
    simp [runView, h1, h2, h3, h4]
  · intro h1 h2 h3 h4
    simp [runView, h1, h2, h3, h4]
  · intro run h1 h2 h3 h4 h5
    simp [runView, h1, h2, h3, h4, h5]
  · intro run jobs aevs h1 h2 h3 h4 h5 h6
    simp [runView, h1, h2, h3, h4, h5, h6]
  · intro run jobs h1 h2 h3 h4 h5 h6
    obtain ⟨anns, hfa⟩ := fetchAnnotations_ok_events c jobs h6
    exact ⟨anns, by simp [runView, h1, h2, h3, h4, h5, hfa]⟩

/-- Witness for the amended C7: a failing HTTP client construction yields the
wrapped client error with no collaborator events at all. -/
theorem c7_error_propagation_witness :
    runView opts0 idEnv cHttpFails
      = ⟨[], some (ViewError.wrapped "failed to create http client" "boom"), []⟩ :=
  (c7_error_propagation opts0 idEnv cHttpFails "boom").1 rfl

end GhRunView
